import Mathlib

/-!
# Verification of `dbaccess_rest.py` (NuclearSegmentationDatabase)

A shallow embedding of the REST document-store client `JsonDatabase` from
`src/dbaccess_rest.py`, together with theorems settling the frozen claims
about it.

Modelling conventions:
* HTTP responses arrive from the environment: every operation takes the
  response(s) the remote store would return as explicit arguments, and
  returns the list of HTTP requests it issued together with its outcome.
* Response bodies are modelled already parsed (the source calls
  `json.loads` on `resp.text`; we carry the parsed structure directly).
* Python exceptions become constructors of `DbError` carrying the message
  string the source builds; a Python runtime error such as `IndexError`
  (reachable only on inconsistent remote data) becomes `RunResult.crashed`.
* A pagination loop that would issue one more request than the environment
  provides responses for returns `RunResult.pending`: the Python loop is
  still running at that point.
* `copy.deepcopy` on values is the identity in this pure model.
-/

set_option autoImplicit false

namespace DbAccessRest

universe u

/-- A JSON scalar appearing as a comparator operand in a query predicate
(`z_layer` is a number, the metadata type tag is a string). -/
inductive JVal where
  | jint (i : Int)
  | jstr (s : String)
  deriving DecidableEq

/-- A SODA comparator mapping: `{"$eq": v}` or `{"$between": [lo, hi]}`. -/
inductive Comparator where
  | eq (v : JVal)
  | between (lo hi : JVal)
  deriving DecidableEq

/-- A query predicate (`qdata` in the source): a mapping from field path to
comparator, e.g. `{"geometry.coordinates[2]": {"$eq": z_layer}}`. -/
abbrev QData : Type := List (String × Comparator)

/-- The user mapping stored under the `content` key of a metadata document.
Python dict truthiness: the mapping is truthy iff it is nonempty. -/
abbrev MetaContent : Type := List (String × String)

/-- A stored document as seen by the metadata operations: the source reads
its `"type"` tag and its `"content"` mapping
(`all_items[0].get("value").get("content")`). -/
structure Doc where
  type : String
  content : MetaContent
  deriving DecidableEq

/-- One entry of the `items` array of a query response; the stored document
body sits under its `value` key (`it.get("value")`). -/
structure QItem (α : Type u) where
  value : α
  deriving DecidableEq

/-- The parsed body of a query response:
`{items: [...], count: int, hasMore: bool}` (spec section 6). -/
structure QueryPage (α : Type u) where
  items : List (QItem α)
  count : Nat
  hasMore : Bool
  deriving DecidableEq

/-- A raw HTTP response from the remote store, as `requests` hands it to the
client: status code, reason text, and (already parsed) body. -/
structure HttpResponse (α : Type u) where
  status_code : Nat
  reason : String
  body : α
  deriving DecidableEq

/-- Result of the private transport helpers `__make_post_request`,
`__make_get_request`, `__make_delete_request`: the dictionaries
`{"status": "ok", "code": ..., "data": ...}` and
`{"status": "error", "code": ..., "reason": ...}`. -/
inductive ReqResult (α : Type u) where
  | ok (code : Nat) (data : α)
  | error (code : Nat) (reason : String)
  deriving DecidableEq

/-- `__make_post_request`: any status in `[200, 299]` is success, everything
else is failure carrying status and reason. -/
def make_post_request {α : Type u} (resp : HttpResponse α) : ReqResult α :=
  if 200 ≤ resp.status_code ∧ resp.status_code ≤ 299 then
    .ok resp.status_code resp.body
  else
    .error resp.status_code resp.reason

/-- `__make_get_request`: same classification as POST. -/
def make_get_request {α : Type u} (resp : HttpResponse α) : ReqResult α :=
  if 200 ≤ resp.status_code ∧ resp.status_code ≤ 299 then
    .ok resp.status_code resp.body
  else
    .error resp.status_code resp.reason

/-- `__make_delete_request`: success requires status exactly 200. -/
def make_delete_request {α : Type u} (resp : HttpResponse α) : ReqResult α :=
  if resp.status_code = 200 then
    .ok resp.status_code resp.body
  else
    .error resp.status_code resp.reason

/-- The error message the source builds at every raise site:
`str(resp.get("code")) + " " + resp.get("reason")`. -/
def error_msg (code : Nat) (reason : String) : String :=
  toString code ++ " " ++ reason

/-- The exception taxonomy of `dbaccess_rest.py`, one constructor per
exception class, each carrying the message string the source builds. -/
inductive DbError where
  | unableToCreate (message : String)
  | unableToExtractData (message : String)
  | unableToAccess (message : String)
  | unableToDelete (message : String)
  | unableToAddItem (message : String)
  | collectionExists (message : String)
  | tooManyMetadataDocs (message : String)
  | metadataAlreadyExists (message : String)
  deriving DecidableEq

/-- Outcome of running an operation against a given environment of remote
responses. `pending` models a pagination loop that is still running when
the provided responses run out; `crashed` models a Python runtime error
(e.g. `IndexError`), reachable only on inconsistent remote data. -/
inductive RunResult (α : Type u) where
  | ok (a : α)
  | err (e : DbError)
  | pending
  | crashed
  deriving DecidableEq

/-- An HTTP request issued by the client, recorded in emission order. -/
inductive HttpCall where
  | get (url : String)
  | put (url : String)
  | delete (url : String)
  | postQuery (url : String) (qdata : QData)
  | postInsert (url : String) (doc : Doc)
  deriving DecidableEq

/-- Modelled from the spec: `constants.DB_BASE_URL`, the store base URL from
the `constants` module, which is not under `src/`; the spec (section 6)
treats it as external configuration. Its exact value is never inspected. -/
def DB_BASE_URL : String := "https://db.example.oraclecloud.com/ords/"

/-- The state a `JsonDatabase` instance holds after `__init__`: the
credentials and the derived base URL (`ct.DB_BASE_URL + user +
"/soda/latest/" + collection_name`). -/
structure JsonDatabase where
  user : String
  pword : String
  collname : String
  baseurl : String
  deriving DecidableEq

/-- The parsed body of the store-level listing response consumed by
`list_collections`: `resp_dict.get("items", None)` where each item has a
`name` field. -/
structure CollInfo where
  name : String
  deriving DecidableEq

structure ListBody where
  items : Option (List CollInfo)
  deriving DecidableEq

/-- The environment of remote responses the construction path may consume:
the listing GET, the (conditional) collection DELETE, and the creation PUT. -/
structure CreateEnv where
  listResp : HttpResponse ListBody
  deleteResp : HttpResponse Unit
  putResp : HttpResponse Unit
  deriving DecidableEq

/-- `list_collections` at its default `only_names=True` (the variant the
construction path uses): GET on the store listing URL; on success the
collection names (empty list when `items` is absent); on failure
`DatabaseUnableToAccess` with status and reason. The `only_names=False`
branch returns the raw schema dictionary and is not modelled. -/
def list_collections (db : JsonDatabase) (resp : HttpResponse ListBody) :
    RunResult (List String) :=
  match make_get_request resp with
  | .ok _ resp_dict =>
      match resp_dict.items with
      | none => .ok []
      | some items => .ok (items.map (fun it => it.name))
  | .error code reason => .err (.unableToAccess (error_msg code reason))

/-- The URL `list_collections` targets:
`ct.DB_BASE_URL + user + "/soda/latest"`. -/
def list_url (db : JsonDatabase) : String :=
  DB_BASE_URL ++ db.user ++ "/soda/latest"

/-- `delete_collection`: DELETE on the collection URL; returns 1 on success,
raises `DatabaseUnableToDelete` on error status. -/
def delete_collection (db : JsonDatabase) (resp : HttpResponse Unit) :
    RunResult Nat :=
  match make_delete_request resp with
  | .ok _ _ => .ok 1
  | .error code reason => .err (.unableToDelete (error_msg code reason))

/-- `__create_collection`: list all collections; if the name is present,
either delete it first (overwrite) or raise `DatabaseCollectionExists`;
then PUT the collection URL, raising `DatabaseUnableToCreate` only when
`resp.status_code > 299`. Returns the issued requests and the outcome. -/
def create_collection (db : JsonDatabase) (overwrite : Bool)
    (env : CreateEnv) : List HttpCall × RunResult Nat :=
  let listCall := HttpCall.get (list_url db)
  let putStep : List HttpCall → List HttpCall × RunResult Nat :=
    fun callsSoFar =>
      let calls := callsSoFar ++ [HttpCall.put db.baseurl]
      if env.putResp.status_code > 299 then
        (calls, .err (.unableToCreate
          (error_msg env.putResp.status_code env.putResp.reason)))
      else
        (calls, .ok 1)
  match list_collections db env.listResp with
  | .ok all_colls =>
      if db.collname ∈ all_colls then
        if overwrite then
          match delete_collection db env.deleteResp with
          | .ok _ => putStep [listCall, HttpCall.delete db.baseurl]
          | .err e => ([listCall, HttpCall.delete db.baseurl], .err e)
          | .pending => ([listCall, HttpCall.delete db.baseurl], .pending)
          | .crashed => ([listCall, HttpCall.delete db.baseurl], .crashed)
        else
          ([listCall], .err (.collectionExists (db.collname ++ " already exists")))
      else
        putStep [listCall]
  | .err e => ([listCall], .err e)
  | .pending => ([listCall], .pending)
  | .crashed => ([listCall], .crashed)

/-- `JsonDatabase.__init__`: store the credentials, derive the base URL, and
create the collection only when `create_coll` is set. Returns the issued
requests and the constructed instance (or the construction error). -/
def init (user password collection_name : String)
    (create_coll overwrite : Bool) (env : CreateEnv) :
    List HttpCall × RunResult JsonDatabase :=
  let url_tail := user ++ "/soda/latest/" ++ collection_name
  let db : JsonDatabase :=
    { user := user, pword := password, collname := collection_name
      baseurl := DB_BASE_URL ++ url_tail }
  if create_coll then
    match create_collection db overwrite env with
    | (calls, .ok _) => (calls, .ok db)
    | (calls, .err e) => (calls, .err e)
    | (calls, .pending) => (calls, .pending)
    | (calls, .crashed) => (calls, .crashed)
  else
    ([], .ok db)

/-- The metadata query predicate: `{"type": {"$eq": "Metadata"}}`. -/
def meta_qdata : QData := [("type", Comparator.eq (JVal.jstr "Metadata"))]

/-- `extract_metadata`: POST the metadata query; on success, more than one
result raises `DatabaseTooManyMetadataDocs` (message carries the count),
zero results returns the empty mapping, one result returns its `content`;
a remote error raises `DatabaseUnableToExtractData`. `crashed` is the
`IndexError` Python would hit if `count >= 1` but `items` is empty. -/
def extract_metadata (resp : HttpResponse (QueryPage Doc)) :
    RunResult MetaContent :=
  match make_post_request resp with
  | .ok _ returned_data =>
      let all_items := returned_data.items
      let count := returned_data.count
      if count > 1 then
        .err (.tooManyMetadataDocs
          ("Found " ++ toString count ++ " metadata documents. Only one is allowed."))
      else if count = 0 then
        .ok []
      else
        match all_items with
        | it :: _ => .ok it.value.content
        | [] => .crashed
  | .error code reason => .err (.unableToExtractData (error_msg code reason))

/-- `add_metadata`: wrap the mapping as `{type: "Metadata", content: meta}`,
run `extract_metadata` first, raise `DatabaseMetadataAlreadyExists` when the
extracted content is truthy (a nonempty mapping), otherwise POST the insert,
raising `DatabaseUnableToAddItem` on error status. -/
def add_metadata (db : JsonDatabase) (metadata_dict : MetaContent)
    (queryResp : HttpResponse (QueryPage Doc)) (insertResp : HttpResponse Unit) :
    List HttpCall × RunResult Nat :=
  let formatted_dict : Doc := { type := "Metadata", content := metadata_dict }
  let queryCall := HttpCall.postQuery (db.baseurl ++ "?action=query") meta_qdata
  match extract_metadata queryResp with
  | .ok current_meta =>
      if current_meta.isEmpty = false then
        ([queryCall],
         .err (.metadataAlreadyExists "A collection can have only 1 metadata document."))
      else
        let insertCall := HttpCall.postInsert db.baseurl formatted_dict
        match make_post_request insertResp with
        | .ok _ _ => ([queryCall, insertCall], .ok 1)
        | .error code reason =>
            ([queryCall, insertCall], .err (.unableToAddItem (error_msg code reason)))
  | .err e => ([queryCall], .err e)
  | .pending => ([queryCall], .pending)
  | .crashed => ([queryCall], .crashed)

/-- `add_item`: POST one document to the collection URL; returns 1 on
success, raises `DatabaseUnableToAddItem` with status and reason on error
status. -/
def add_item (db : JsonDatabase) (item_dict : Doc) (resp : HttpResponse Unit) :
    RunResult Nat :=
  match make_post_request resp with
  | .ok _ _ => .ok 1
  | .error code reason => .err (.unableToAddItem (error_msg code reason))

/-- `add_multiple_items`: POST a list of documents to the insert-action URL
(`baseurl + "?action=insert"`); returns 1 on success, raises
`DatabaseUnableToAddItem` with status and reason on error status. -/
def add_multiple_items (db : JsonDatabase) (items_list : List Doc)
    (resp : HttpResponse Unit) : RunResult Nat :=
  match make_post_request resp with
  | .ok _ _ => .ok 1
  | .error code reason => .err (.unableToAddItem (error_msg code reason))

/-- The query URL built each iteration of the pagination loops:
`baseurl + "?action=query&offset={offset}"`. -/
def extract_url (baseurl : String) (offset : Nat) : String :=
  baseurl ++ "?action=query&offset=" ++ toString offset

/-- The pagination while-loop shared verbatim (apart from the query
predicate `qdata`) by `extract_items`, `extract_tile_data` and
`extract_region`: while `has_more`, POST the predicate at the current
offset; on an ok page read `items`, `count`, `hasMore`, advance the offset
by `count` and append the item values when `count > 0`; on an error
response raise `DatabaseUnableToExtractData` discarding everything.
Returns the issued requests paired with the outcome; exhausting the
provided responses while `has_more` holds yields `pending`. -/
def paged_query_loop {α : Type u} (baseurl : String) (qdata : QData) :
    List (HttpResponse (QueryPage α)) → Nat → List α →
    List HttpCall × RunResult (List α)
  | [], _, _ => ([], .pending)
  | resp :: rest, offset, items =>
      let call := HttpCall.postQuery (extract_url baseurl offset) qdata
      match make_post_request resp with
      | .ok _ returned_data =>
          let all_items := returned_data.items
          let count := returned_data.count
          let has_more := returned_data.hasMore
          let offset2 := offset + count
          let items2 :=
            if count > 0 then items ++ all_items.map (fun it => it.value) else items
          if has_more then
            let r := paged_query_loop baseurl qdata rest offset2 items2
            (call :: r.1, r.2)
          else
            ([call], .ok items2)
      | .error code reason =>
          ([call], .err (.unableToExtractData (error_msg code reason)))

/-- The predicate of `extract_items`:
`{"geometry.coordinates[2]": {"$eq": z_layer}}`. -/
def items_qdata (z_layer : Int) : QData :=
  [("geometry.coordinates[2]", Comparator.eq (JVal.jint z_layer))]

/-- The predicate shared by `extract_tile_data` (after computing `xf`, `yf`)
and `extract_region`: z-layer equality plus inclusive `$between` ranges on
the first two coordinates. -/
def bbox_qdata (z_layer x0 y0 xf yf : Int) : QData :=
  [("geometry.coordinates[2]", Comparator.eq (JVal.jint z_layer)),
   ("geometry.coordinates[0]", Comparator.between (JVal.jint x0) (JVal.jint xf)),
   ("geometry.coordinates[1]", Comparator.between (JVal.jint y0) (JVal.jint yf))]

/-- `extract_items`: paginated query for the documents of a z-layer,
starting at `offset = 0` with an empty accumulator. -/
def extract_items {α : Type u} (db : JsonDatabase) (z_layer : Int)
    (resps : List (HttpResponse (QueryPage α))) :
    List HttpCall × RunResult (List α) :=
  paged_query_loop db.baseurl (items_qdata z_layer) resps 0 []

/-- `extract_tile_data`: compute `xf = x0 + tile_size - 1`,
`yf = y0 + tile_size - 1`, then run the same pagination loop with the
bounding-box predicate. -/
def extract_tile_data {α : Type u} (db : JsonDatabase) (z_layer x0 y0 : Int)
    (tile_size : Int) (resps : List (HttpResponse (QueryPage α))) :
    List HttpCall × RunResult (List α) :=
  let xf := x0 + tile_size - 1
  let yf := y0 + tile_size - 1
  paged_query_loop db.baseurl (bbox_qdata z_layer x0 y0 xf yf) resps 0 []

/-- `extract_region`: the same loop with an explicit inclusive bounding box
`[x0, xf] × [y0, yf]`. -/
def extract_region {α : Type u} (db : JsonDatabase) (z_layer x0 y0 xf yf : Int)
    (resps : List (HttpResponse (QueryPage α))) :
    List HttpCall × RunResult (List α) :=
  paged_query_loop db.baseurl (bbox_qdata z_layer x0 y0 xf yf) resps 0 []

/-! ## An idealized remote store

To state scenarios that span several calls (adding metadata twice), we model
a well-behaved remote collection: a list of stored documents that answers
the metadata query with the response shape of spec section 6 (`count` equal
to the number of matching items, all in one page) and accepts every insert
with status 201. This is the environment the client talks to, not part of
the source. -/

/-- The remote collection state: the stored documents. -/
abbrev Store : Type := List Doc

/-- The documents of the store whose `type` tag is `"Metadata"`. -/
def Store.metadataDocs (s : Store) : List Doc :=
  s.filter (fun d => d.type = "Metadata")

/-- The store's answer to the metadata query: every matching document in a
single page, with a consistent `count` and `hasMore = false`. -/
def Store.metaQueryPage (s : Store) : QueryPage Doc :=
  { items := (Store.metadataDocs s).map (fun d => { value := d })
    count := (Store.metadataDocs s).length
    hasMore := false }

/-- The metadata query response: status 200 around `metaQueryPage`. -/
def Store.metaQueryResp (s : Store) : HttpResponse (QueryPage Doc) :=
  { status_code := 200, reason := "OK", body := Store.metaQueryPage s }

/-- The store accepts every insert: status 201. -/
def okInsertResp : HttpResponse Unit :=
  { status_code := 201, reason := "Created", body := () }

/-- How the store state evolves under one issued request: an insert appends
its document; every other request leaves the state unchanged. -/
def Store.applyCall (s : Store) (c : HttpCall) : Store :=
  match c with
  | .postInsert _ d => s ++ [d]
  | _ => s

/-- Run `add_metadata` against the idealized store: the query is answered
from the current state, the insert (when issued) succeeds, and the state
is updated by the issued requests. -/
def Store.runAddMetadata (db : JsonDatabase) (s : Store)
    (metadata_dict : MetaContent) : RunResult Nat × Store :=
  let r := add_metadata db metadata_dict (Store.metaQueryResp s) okInsertResp
  (r.2, r.1.foldl Store.applyCall s)

/-- The sequence of offsets a pagination run visits: starting value, then
advance by each page count in turn. -/
def pageOffsets (start : Nat) : List Nat → List Nat
  | [] => []
  | c :: cs => start :: pageOffsets (start + c) cs

/-! ## Transport helper lemmas -/

lemma make_post_request_ok {α : Type u} (r : HttpResponse α)
    (h : 200 ≤ r.status_code ∧ r.status_code ≤ 299) :
    make_post_request r = .ok r.status_code r.body := by
  simp [make_post_request, h.1, h.2]

lemma make_post_request_error {α : Type u} (r : HttpResponse α)
    (h : ¬(200 ≤ r.status_code ∧ r.status_code ≤ 299)) :
    make_post_request r = .error r.status_code r.reason := by
  simp only [make_post_request, if_neg h]

lemma make_get_request_ok {α : Type u} (r : HttpResponse α)
    (h : 200 ≤ r.status_code ∧ r.status_code ≤ 299) :
    make_get_request r = .ok r.status_code r.body := by
  simp [make_get_request, h.1, h.2]

lemma make_get_request_error {α : Type u} (r : HttpResponse α)
    (h : ¬(200 ≤ r.status_code ∧ r.status_code ≤ 299)) :
    make_get_request r = .error r.status_code r.reason := by
  simp only [make_get_request, if_neg h]

/-! ## Claim theorems -/

/-- C10: constructing a `JsonDatabase` with the create flag unset issues no
HTTP request and always succeeds, whatever the remote store would answer:
it only stores the credentials and derives the base URL from the user and
collection name, without verifying that the collection exists. -/
theorem c10_init_without_create (user password collection_name : String)
    (overwrite : Bool) (env : CreateEnv) :
    init user password collection_name false overwrite env =
      ([], .ok { user := user, pword := password, collname := collection_name
                 baseurl := DB_BASE_URL ++ user ++ "/soda/latest/" ++ collection_name }) :=
  rfl

/-- C7: `extract_tile_data z x0 y0 tile_size` builds the predicate with
z-layer equality and inclusive `$between` ranges ending at
`x0 + tile_size - 1` and `y0 + tile_size - 1`, and — given the same
sequence of remote responses — issues the same requests and returns the
same result as `extract_region z x0 y0 (x0+tile_size-1) (y0+tile_size-1)`. -/
theorem c7_tile_refines_region {α : Type u} (db : JsonDatabase)
    (z_layer x0 y0 tile_size : Int)
    (resps : List (HttpResponse (QueryPage α))) :
    bbox_qdata z_layer x0 y0 (x0 + tile_size - 1) (y0 + tile_size - 1) =
      [("geometry.coordinates[2]", Comparator.eq (JVal.jint z_layer)),
       ("geometry.coordinates[0]",
         Comparator.between (JVal.jint x0) (JVal.jint (x0 + tile_size - 1))),
       ("geometry.coordinates[1]",
         Comparator.between (JVal.jint y0) (JVal.jint (y0 + tile_size - 1)))] ∧
    extract_tile_data db z_layer x0 y0 tile_size resps =
      extract_region db z_layer x0 y0 (x0 + tile_size - 1) (y0 + tile_size - 1) resps :=
  ⟨rfl, rfl⟩

/-- C5: `extract_metadata` on an ok response returns the empty mapping at
count 0, the single document's `content` at count 1, and the
too-many-metadata-documents error carrying the count when more than one
document matches; a remote query error yields the extract-data error with
status and reason. -/
theorem c5_extract_metadata_cases (resp : HttpResponse (QueryPage Doc)) :
    (200 ≤ resp.status_code ∧ resp.status_code ≤ 299 →
      (resp.body.count = 0 → extract_metadata resp = .ok []) ∧
      (∀ it rest, resp.body.count = 1 → resp.body.items = it :: rest →
        extract_metadata resp = .ok it.value.content) ∧
      (resp.body.count > 1 → extract_metadata resp =
        .err (.tooManyMetadataDocs
          ("Found " ++ toString resp.body.count ++
            " metadata documents. Only one is allowed.")))) ∧
    (¬(200 ≤ resp.status_code ∧ resp.status_code ≤ 299) →
      extract_metadata resp =
        .err (.unableToExtractData (error_msg resp.status_code resp.reason))) := by
  constructor
  · intro hok
    refine ⟨?_, ?_, ?_⟩
    · intro h0
      simp [extract_metadata, make_post_request_ok resp hok, h0]
    · intro it rest h1 hitems
      simp [extract_metadata, make_post_request_ok resp hok, h1, hitems]
    · intro h2
      simp [extract_metadata, make_post_request_ok resp hok, h2]
  · intro hbad
    simp [extract_metadata, make_post_request_error resp hbad]

/-- A 200 response with zero metadata results. -/
def respMeta0 : HttpResponse (QueryPage Doc) :=
  { status_code := 200, reason := "OK"
    body := { items := [], count := 0, hasMore := false } }

/-- A 200 response with exactly one metadata result. -/
def respMeta1 : HttpResponse (QueryPage Doc) :=
  { status_code := 200, reason := "OK"
    body := { items := [{ value := { type := "Metadata", content := [("a", "b")] } }]
              count := 1, hasMore := false } }

/-- A 200 response reporting three metadata results. -/
def respMeta3 : HttpResponse (QueryPage Doc) :=
  { status_code := 200, reason := "OK"
    body := { items := [], count := 3, hasMore := false } }

/-- A 404 response. -/
def respMeta404 : HttpResponse (QueryPage Doc) :=
  { status_code := 404, reason := "Not Found"
    body := { items := [], count := 0, hasMore := false } }

/-- Witness for C5 at concrete responses: an ok page with zero results, an
ok page with one result, an ok page with three results, and a 404. -/
theorem c5_witness :
    (200 ≤ respMeta0.status_code ∧ respMeta0.status_code ≤ 299) ∧
    extract_metadata respMeta0 = .ok [] ∧
    extract_metadata respMeta1 = .ok [("a", "b")] ∧
    extract_metadata respMeta3 =
      .err (.tooManyMetadataDocs "Found 3 metadata documents. Only one is allowed.") ∧
    ¬(200 ≤ respMeta404.status_code ∧ respMeta404.status_code ≤ 299) ∧
    extract_metadata respMeta404 =
      .err (.unableToExtractData (error_msg 404 "Not Found")) := by
  refine ⟨by decide, ?_, ?_, ?_, by decide, ?_⟩
  · exact ((c5_extract_metadata_cases respMeta0).1 (by decide)).1 rfl
  · exact ((c5_extract_metadata_cases respMeta1).1 (by decide)).2.1 _ _ rfl rfl
  · have h := ((c5_extract_metadata_cases respMeta3).1 (by decide)).2.2 (by decide)
    simpa using h
  · exact (c5_extract_metadata_cases respMeta404).2 (by decide)

/-- A fixture client instance for concrete runs. -/
def db0 : JsonDatabase :=
  { user := "u", pword := "p", collname := "c"
    baseurl := DB_BASE_URL ++ "u" ++ "/soda/latest/" ++ "c" }

/-- An environment whose listing is ok and empty and whose creation PUT
answers status 100: a non-2xx status the create check accepts. -/
def envPut100 : CreateEnv :=
  { listResp := { status_code := 200, reason := "OK", body := { items := some [] } }
    deleteResp := { status_code := 200, reason := "OK", body := () }
    putResp := { status_code := 100, reason := "Continue", body := () } }

/-- C4 counterexample: the claim says the creation PUT is checked against
the same `[200, 299]` classification as the other transport helpers, but at
status 100 — which that classification calls a failure — `create_collection`
returns success without raising any error. -/
theorem c4_counterexample :
    create_collection db0 false envPut100 =
      ([HttpCall.get (list_url db0), HttpCall.put db0.baseurl], .ok 1) ∧
    ¬(200 ≤ envPut100.putResp.status_code ∧ envPut100.putResp.status_code ≤ 299) ∧
    make_post_request envPut100.putResp = .error 100 "Continue" :=
  ⟨rfl, by decide, rfl⟩

/-- C8: with the create flag set, if the collection name appears in the
store listing and overwrite is unset, construction raises the
collection-exists error after only the listing GET — no delete and no
create PUT is issued, so the existing collection is untouched; with
overwrite set, the existing collection is deleted and then recreated; if
the name does not appear, the collection is created directly. -/
theorem c8_create_collection_paths (db : JsonDatabase) (env : CreateEnv)
    (names : List CollInfo)
    (hl : 200 ≤ env.listResp.status_code ∧ env.listResp.status_code ≤ 299)
    (hitems : env.listResp.body.items = some names) :
    (db.collname ∈ names.map CollInfo.name →
      create_collection db false env =
        ([HttpCall.get (list_url db)],
         .err (.collectionExists (db.collname ++ " already exists")))) ∧
    (db.collname ∈ names.map CollInfo.name →
      env.deleteResp.status_code = 200 →
      env.putResp.status_code ≤ 299 →
      create_collection db true env =
        ([HttpCall.get (list_url db), HttpCall.delete db.baseurl,
          HttpCall.put db.baseurl], .ok 1)) ∧
    (∀ ov : Bool, db.collname ∉ names.map CollInfo.name →
      env.putResp.status_code ≤ 299 →
      create_collection db ov env =
        ([HttpCall.get (list_url db), HttpCall.put db.baseurl], .ok 1)) := by
  refine ⟨?_, ?_, ?_⟩
  · intro hmem
    simp [create_collection, list_collections, make_get_request_ok _ hl, hitems, hmem]
  · intro hmem hdel hput
    simp [create_collection, list_collections, make_get_request_ok _ hl, hitems, hmem,
      delete_collection, make_delete_request, hdel, Nat.not_lt.mpr hput]
  · intro ov habsent hput
    simp [create_collection, list_collections, make_get_request_ok _ hl, hitems, habsent,
      Nat.not_lt.mpr hput]

/-- An environment whose listing already contains the collection `"c"` of
`db0`, with a 200 delete and a 201 create PUT. -/
def envExists : CreateEnv :=
  { listResp := { status_code := 200, reason := "OK", body := { items := some [{ name := "c" }] } }
    deleteResp := { status_code := 200, reason := "OK", body := () }
    putResp := { status_code := 201, reason := "Created", body := () } }

/-- Witness for C8: against a listing that contains the collection,
construction without overwrite stops at the listing GET with the
collection-exists error, and with overwrite it deletes then recreates;
against an empty listing it creates directly. -/
theorem c8_witness :
    (200 ≤ envExists.listResp.status_code ∧ envExists.listResp.status_code ≤ 299) ∧
    envExists.listResp.body.items = some [{ name := "c" }] ∧
    db0.collname ∈ [CollInfo.mk "c"].map CollInfo.name ∧
    envExists.deleteResp.status_code = 200 ∧
    envExists.putResp.status_code ≤ 299 ∧
    create_collection db0 false envExists =
      ([HttpCall.get (list_url db0)],
       .err (.collectionExists (db0.collname ++ " already exists"))) ∧
    create_collection db0 true envExists =
      ([HttpCall.get (list_url db0), HttpCall.delete db0.baseurl,
        HttpCall.put db0.baseurl], .ok 1) ∧
    (db0.collname ∉ ([] : List CollInfo).map CollInfo.name ∧
      create_collection db0 false envPut100 =
        ([HttpCall.get (list_url db0), HttpCall.put db0.baseurl], .ok 1)) := by
  refine ⟨by decide, rfl, by decide, rfl, by decide, ?_, ?_, by simp, ?_⟩
  · exact (c8_create_collection_paths db0 envExists [{ name := "c" }]
      (by decide) rfl).1 (by decide)
  · exact (c8_create_collection_paths db0 envExists [{ name := "c" }]
      (by decide) rfl).2.1 (by decide) rfl (by decide)
  · exact (c8_create_collection_paths db0 envPut100 []
      (by decide) rfl).2.2 false (by simp) (by decide)

/-! ## Pagination loop lemmas -/

/-- One ok page with `hasMore = true`: record the request, advance the
offset by the page count, extend the accumulator, continue. -/
lemma paged_query_loop_step_more {α : Type u} (b : String) (q : QData)
    (r : HttpResponse (QueryPage α)) (rest : List (HttpResponse (QueryPage α)))
    (offset : Nat) (acc : List α)
    (h : 200 ≤ r.status_code ∧ r.status_code ≤ 299)
    (hmore : r.body.hasMore = true) :
    paged_query_loop b q (r :: rest) offset acc =
      (HttpCall.postQuery (extract_url b offset) q ::
        (paged_query_loop b q rest (offset + r.body.count)
          (if r.body.count > 0 then acc ++ r.body.items.map (fun it => it.value)
           else acc)).1,
       (paged_query_loop b q rest (offset + r.body.count)
          (if r.body.count > 0 then acc ++ r.body.items.map (fun it => it.value)
           else acc)).2) := by
  simp [paged_query_loop, make_post_request_ok r h, hmore]

/-- One ok page with `hasMore = false`: the loop stops and returns the
extended accumulator. -/
lemma paged_query_loop_step_last {α : Type u} (b : String) (q : QData)
    (r : HttpResponse (QueryPage α)) (rest : List (HttpResponse (QueryPage α)))
    (offset : Nat) (acc : List α)
    (h : 200 ≤ r.status_code ∧ r.status_code ≤ 299)
    (hmore : r.body.hasMore = false) :
    paged_query_loop b q (r :: rest) offset acc =
      ([HttpCall.postQuery (extract_url b offset) q],
       .ok (if r.body.count > 0 then acc ++ r.body.items.map (fun it => it.value)
            else acc)) := by
  simp [paged_query_loop, make_post_request_ok r h, hmore]

/-- A non-ok page: the loop aborts with the extract-data error. -/
lemma paged_query_loop_step_err {α : Type u} (b : String) (q : QData)
    (r : HttpResponse (QueryPage α)) (rest : List (HttpResponse (QueryPage α)))
    (offset : Nat) (acc : List α)
    (h : ¬(200 ≤ r.status_code ∧ r.status_code ≤ 299)) :
    paged_query_loop b q (r :: rest) offset acc =
      ([HttpCall.postQuery (extract_url b offset) q],
       .err (.unableToExtractData (error_msg r.status_code r.reason))) := by
  simp [paged_query_loop, make_post_request_error r h]

/-- When the reported count matches the number of items, the conditional
accumulator extension is a plain append. -/
lemma count_guard_append {α : Type u} (acc : List α) (page : QueryPage α)
    (hc : page.count = page.items.length) :
    (if page.count > 0 then acc ++ page.items.map (fun it => it.value) else acc) =
      acc ++ page.items.map (fun it => it.value) := by
  by_cases h : page.count > 0
  · simp [h]
  · have h0 : page.count = 0 := Nat.eq_zero_of_not_pos h
    have : page.items = [] := List.length_eq_zero.mp (hc.symm.trans h0)
    simp [h0, this]

/-- The pagination run over ok pages, all but the last flagged `hasMore`:
one request per page at the accumulated offsets, and the concatenation of
all page item values appended to the accumulator. -/
lemma paged_query_loop_ok_pages {α : Type u} (b : String) (q : QData)
    (mids : List (HttpResponse (QueryPage α))) (last : HttpResponse (QueryPage α))
    (hm : ∀ r ∈ mids, (200 ≤ r.status_code ∧ r.status_code ≤ 299) ∧
      r.body.hasMore = true ∧ r.body.count = r.body.items.length)
    (hl : (200 ≤ last.status_code ∧ last.status_code ≤ 299) ∧
      last.body.hasMore = false ∧ last.body.count = last.body.items.length) :
    ∀ (offset : Nat) (acc : List α),
    paged_query_loop b q (mids ++ [last]) offset acc =
      ((pageOffsets offset ((mids ++ [last]).map (fun r => r.body.count))).map
         (fun o => HttpCall.postQuery (extract_url b o) q),
       .ok (acc ++ (mids ++ [last]).flatMap
         (fun r => r.body.items.map (fun it => it.value)))) := by
  induction mids with
  | nil =>
      intro offset acc
      rw [List.nil_append,
        paged_query_loop_step_last b q last [] offset acc hl.1 hl.2.1,
        count_guard_append acc last.body hl.2.2]
      simp [pageOffsets]
  | cons r rest ih =>
      intro offset acc
      have hr := hm r (List.mem_cons_self r rest)
      have hrest : ∀ x ∈ rest, (200 ≤ x.status_code ∧ x.status_code ≤ 299) ∧
          x.body.hasMore = true ∧ x.body.count = x.body.items.length :=
        fun x hx => hm x (List.mem_cons_of_mem r hx)
      rw [List.cons_append,
        paged_query_loop_step_more b q r (rest ++ [last]) offset acc hr.1 hr.2.1,
        count_guard_append acc r.body hr.2.2, ih hrest]
      simp [pageOffsets, List.append_assoc]

/-- C2: over ok pages whose counts are consistent with their item lists,
`extract_items` issues the z-layer equality predicate at offsets that
start at 0 and accumulate by each page's count, stops exactly when a page
reports `hasMore = false`, and returns the concatenation of all returned
document bodies in arrival order. -/
theorem c2_extract_items_pagination {α : Type u} (db : JsonDatabase) (z_layer : Int)
    (mids : List (HttpResponse (QueryPage α))) (last : HttpResponse (QueryPage α))
    (hm : ∀ r ∈ mids, (200 ≤ r.status_code ∧ r.status_code ≤ 299) ∧
      r.body.hasMore = true ∧ r.body.count = r.body.items.length)
    (hl : (200 ≤ last.status_code ∧ last.status_code ≤ 299) ∧
      last.body.hasMore = false ∧ last.body.count = last.body.items.length) :
    extract_items db z_layer (mids ++ [last]) =
      ((pageOffsets 0 ((mids ++ [last]).map (fun r => r.body.count))).map
         (fun o => HttpCall.postQuery (extract_url db.baseurl o) (items_qdata z_layer)),
       .ok ((mids ++ [last]).flatMap (fun r => r.body.items.map (fun it => it.value)))) := by
  have h := paged_query_loop_ok_pages db.baseurl (items_qdata z_layer) mids last hm hl 0 []
  simpa [extract_items] using h

/-- First page of the 5-documents-at-page-size-2 scenario. -/
def pageA : HttpResponse (QueryPage Nat) :=
  { status_code := 200, reason := "OK"
    body := { items := [{ value := 1 }, { value := 2 }], count := 2, hasMore := true } }

/-- Second page of the 5-documents-at-page-size-2 scenario. -/
def pageB : HttpResponse (QueryPage Nat) :=
  { status_code := 200, reason := "OK"
    body := { items := [{ value := 3 }, { value := 4 }], count := 2, hasMore := true } }

/-- Final page of the 5-documents-at-page-size-2 scenario. -/
def pageC : HttpResponse (QueryPage Nat) :=
  { status_code := 200, reason := "OK"
    body := { items := [{ value := 5 }], count := 1, hasMore := false } }

/-- Witness for C2: page size 2 with 5 matching documents gives 3 pages at
offsets 0, 2, 4 and the aggregate of all 5 documents. -/
theorem c2_witness :
    (∀ r ∈ [pageA, pageB], (200 ≤ r.status_code ∧ r.status_code ≤ 299) ∧
      r.body.hasMore = true ∧ r.body.count = r.body.items.length) ∧
    ((200 ≤ pageC.status_code ∧ pageC.status_code ≤ 299) ∧
      pageC.body.hasMore = false ∧ pageC.body.count = pageC.body.items.length) ∧
    extract_items db0 7 [pageA, pageB, pageC] =
      ([HttpCall.postQuery (extract_url db0.baseurl 0) (items_qdata 7),
        HttpCall.postQuery (extract_url db0.baseurl 2) (items_qdata 7),
        HttpCall.postQuery (extract_url db0.baseurl 4) (items_qdata 7)],
       .ok [1, 2, 3, 4, 5]) := by
  refine ⟨by decide, by decide, ?_⟩
  have h := c2_extract_items_pagination db0 7 [pageA, pageB] pageC (by decide) (by decide)
  simpa [pageOffsets, pageA, pageB, pageC] using h

/-- A 200 page reporting no items, `count = 0` and `hasMore = true`. -/
def zero_count_page {α : Type u} : HttpResponse (QueryPage α) :=
  { status_code := 200, reason := "OK"
    body := { items := [], count := 0, hasMore := true } }

/-- Over ok pages that all flag `hasMore = true`, the loop never returns. -/
lemma paged_query_loop_all_more {α : Type u} (b : String) (q : QData) :
    ∀ (resps : List (HttpResponse (QueryPage α))),
    (∀ r ∈ resps, (200 ≤ r.status_code ∧ r.status_code ≤ 299) ∧
      r.body.hasMore = true) →
    ∀ (offset : Nat) (acc : List α),
    (paged_query_loop b q resps offset acc).2 = .pending := by
  intro resps
  induction resps with
  | nil => intro _ _ _; rfl
  | cons r rest ih =>
      intro h offset acc
      have hr := h r (List.mem_cons_self r rest)
      rw [paged_query_loop_step_more b q r rest offset acc hr.1 hr.2]
      exact ih (fun x hx => h x (List.mem_cons_of_mem r hx)) _ _

/-- Over ok pages, as soon as some page flags `hasMore = false` the loop
returns successfully. -/
lemma paged_query_loop_finds_false {α : Type u} (b : String) (q : QData) :
    ∀ (resps : List (HttpResponse (QueryPage α))),
    (∀ r ∈ resps, 200 ≤ r.status_code ∧ r.status_code ≤ 299) →
    (∃ r ∈ resps, r.body.hasMore = false) →
    ∀ (offset : Nat) (acc : List α),
    ∃ tr its, paged_query_loop b q resps offset acc = (tr, .ok its) := by
  intro resps
  induction resps with
  | nil =>
      intro _ hex _ _
      simp at hex
  | cons r rest ih =>
      intro h2 hex offset acc
      by_cases hmore : r.body.hasMore = true
      · have hex2 : ∃ x ∈ rest, x.body.hasMore = false := by
          rcases hex with ⟨x, hx, hfx⟩
          rcases List.mem_cons.mp hx with hh | hh
          · rw [hh] at hfx
            rw [hfx] at hmore
            cases hmore
          · exact ⟨x, hh, hfx⟩
        rw [paged_query_loop_step_more b q r rest offset acc
          (h2 r (List.mem_cons_self r rest)) hmore]
        rcases ih (fun x hx => h2 x (List.mem_cons_of_mem r hx)) hex2
          (offset + r.body.count)
          (if r.body.count > 0 then acc ++ r.body.items.map (fun it => it.value)
           else acc) with ⟨tr, its, heq⟩
        rw [heq]
        exact ⟨_, _, rfl⟩
      · have hfalse : r.body.hasMore = false := by
          cases hb : r.body.hasMore
          · rfl
          · exact absurd hb hmore
        rw [paged_query_loop_step_last b q r rest offset acc
          (h2 r (List.mem_cons_self r rest)) hfalse]
        exact ⟨_, _, rfl⟩

/-- Over ok pages, the loop returns successfully iff some page flags
`hasMore = false`. -/
lemma paged_query_loop_ok_iff {α : Type u} (b : String) (q : QData)
    (resps : List (HttpResponse (QueryPage α)))
    (h2 : ∀ r ∈ resps, 200 ≤ r.status_code ∧ r.status_code ≤ 299)
    (offset : Nat) (acc : List α) :
    (∃ tr its, paged_query_loop b q resps offset acc = (tr, .ok its)) ↔
      (∃ r ∈ resps, r.body.hasMore = false) := by
  constructor
  · rintro ⟨tr, its, heq⟩
    by_contra hnone
    push_neg at hnone
    have hall : ∀ r ∈ resps, (200 ≤ r.status_code ∧ r.status_code ≤ 299) ∧
        r.body.hasMore = true := by
      intro r hr
      refine ⟨h2 r hr, ?_⟩
      cases hb : r.body.hasMore
      · exact absurd hb (hnone r hr)
      · rfl
    have hp := paged_query_loop_all_more b q resps hall offset acc
    rw [heq] at hp
    cases hp
  · intro hex
    exact paged_query_loop_finds_false b q resps h2 hex offset acc

/-- Any number of zero-count `hasMore = true` pages: every request repeats
the same unchanged offset and the loop is still running at the end. -/
lemma paged_query_loop_zero_count {α : Type u} (b : String) (q : QData) :
    ∀ (n offset : Nat) (acc : List α),
    paged_query_loop b q (List.replicate n (zero_count_page (α := α))) offset acc =
      (List.replicate n (HttpCall.postQuery (extract_url b offset) q), .pending) := by
  intro n
  induction n with
  | zero => intro _ _; rfl
  | succ n ih =>
      intro offset acc
      rw [List.replicate_succ,
        paged_query_loop_step_more b q zero_count_page _ offset acc
          (by constructor <;> norm_num [zero_count_page]) rfl]
      have hc : (zero_count_page (α := α)).body.count = 0 := rfl
      rw [hc, Nat.add_zero]
      have hif : (if (0 : Nat) > 0 then
          acc ++ (zero_count_page (α := α)).body.items.map (fun it => it.value)
        else acc) = acc := by norm_num
      rw [hif, ih offset acc, List.replicate_succ]

/-- C3: over ok responses, the pagination loop of `extract_items` (and of
`extract_tile_data` and `extract_region`) returns iff some response flags
`hasMore = false`; and on any run of zero-count `hasMore = true` pages
every request repeats the unchanged offset 0 and the loop is still running
— zero-count pages are not treated as end-of-results. -/
theorem c3_pagination_termination {α : Type u} (db : JsonDatabase)
    (z_layer x0 y0 xf yf tile_size : Int) :
    (∀ resps : List (HttpResponse (QueryPage α)),
      (∀ r ∈ resps, 200 ≤ r.status_code ∧ r.status_code ≤ 299) →
      ((∃ tr its, extract_items db z_layer resps = (tr, .ok its)) ↔
        (∃ r ∈ resps, r.body.hasMore = false)) ∧
      ((∃ tr its, extract_tile_data db z_layer x0 y0 tile_size resps = (tr, .ok its)) ↔
        (∃ r ∈ resps, r.body.hasMore = false)) ∧
      ((∃ tr its, extract_region db z_layer x0 y0 xf yf resps = (tr, .ok its)) ↔
        (∃ r ∈ resps, r.body.hasMore = false))) ∧
    (∀ n : Nat,
      extract_items db z_layer (List.replicate n (zero_count_page (α := α))) =
        (List.replicate n
          (HttpCall.postQuery (extract_url db.baseurl 0) (items_qdata z_layer)),
         .pending) ∧
      extract_tile_data db z_layer x0 y0 tile_size
          (List.replicate n (zero_count_page (α := α))) =
        (List.replicate n
          (HttpCall.postQuery (extract_url db.baseurl 0)
            (bbox_qdata z_layer x0 y0 (x0 + tile_size - 1) (y0 + tile_size - 1))),
         .pending) ∧
      extract_region db z_layer x0 y0 xf yf
          (List.replicate n (zero_count_page (α := α))) =
        (List.replicate n
          (HttpCall.postQuery (extract_url db.baseurl 0)
            (bbox_qdata z_layer x0 y0 xf yf)),
         .pending)) := by
  constructor
  · intro resps h2
    exact ⟨paged_query_loop_ok_iff db.baseurl _ resps h2 0 [],
      paged_query_loop_ok_iff db.baseurl _ resps h2 0 [],
      paged_query_loop_ok_iff db.baseurl _ resps h2 0 []⟩
  · intro n
    exact ⟨paged_query_loop_zero_count db.baseurl _ n 0 [],
      paged_query_loop_zero_count db.baseurl _ n 0 [],
      paged_query_loop_zero_count db.baseurl _ n 0 []⟩

/-- Witness for C3: two concrete response sequences — one all `hasMore=true`
(never returns, both offsets 0) and one ending `hasMore=false` (returns). -/
theorem c3_witness :
    (∀ r ∈ [pageA, pageC], 200 ≤ r.status_code ∧ r.status_code ≤ 299) ∧
    ((∃ tr its, extract_items db0 7 [pageA, pageC] = (tr, .ok its)) ↔
      (∃ r ∈ [pageA, pageC], r.body.hasMore = false)) ∧
    (∃ r ∈ [pageA, pageC], r.body.hasMore = false) ∧
    extract_items db0 7 (List.replicate 2 (zero_count_page (α := Nat))) =
      (List.replicate 2
        (HttpCall.postQuery (extract_url db0.baseurl 0) (items_qdata 7)),
       .pending) := by
  refine ⟨by decide, ?_, by decide, ?_⟩
  · exact ((c3_pagination_termination (α := Nat) db0 7 0 0 0 0 0).1
      [pageA, pageC] (by decide)).1
  · exact ((c3_pagination_termination (α := Nat) db0 7 0 0 0 0 0).2 2).1

/-- Over ok `hasMore = true` pages followed by an error response, the loop
aborts with the extract-data error: everything accumulated is discarded. -/
lemma paged_query_loop_error_after_oks {α : Type u} (b : String) (q : QData) :
    ∀ (oks : List (HttpResponse (QueryPage α))) (e : HttpResponse (QueryPage α)),
    (∀ r ∈ oks, (200 ≤ r.status_code ∧ r.status_code ≤ 299) ∧
      r.body.hasMore = true) →
    ¬(200 ≤ e.status_code ∧ e.status_code ≤ 299) →
    ∀ (offset : Nat) (acc : List α),
    (paged_query_loop b q (oks ++ [e]) offset acc).2 =
      .err (.unableToExtractData (error_msg e.status_code e.reason)) := by
  intro oks
  induction oks with
  | nil =>
      intro e _ he offset acc
      rw [List.nil_append, paged_query_loop_step_err b q e [] offset acc he]
  | cons r rest ih =>
      intro e h he offset acc
      have hr := h r (List.mem_cons_self r rest)
      rw [List.cons_append,
        paged_query_loop_step_more b q r (rest ++ [e]) offset acc hr.1 hr.2]
      exact ih e (fun x hx => h x (List.mem_cons_of_mem r hx)) he _ _

/-- C6: for every paginated extract, a non-ok status at any page makes the
whole operation abort with the extract-data error; the items accumulated
from earlier pages are discarded, never returned. -/
theorem c6_error_discards_partial_results {α : Type u} (db : JsonDatabase)
    (z_layer x0 y0 xf yf tile_size : Int)
    (oks : List (HttpResponse (QueryPage α))) (e : HttpResponse (QueryPage α))
    (hoks : ∀ r ∈ oks, (200 ≤ r.status_code ∧ r.status_code ≤ 299) ∧
      r.body.hasMore = true)
    (he : ¬(200 ≤ e.status_code ∧ e.status_code ≤ 299)) :
    (extract_items db z_layer (oks ++ [e])).2 =
      .err (.unableToExtractData (error_msg e.status_code e.reason)) ∧
    (extract_tile_data db z_layer x0 y0 tile_size (oks ++ [e])).2 =
      .err (.unableToExtractData (error_msg e.status_code e.reason)) ∧
    (extract_region db z_layer x0 y0 xf yf (oks ++ [e])).2 =
      .err (.unableToExtractData (error_msg e.status_code e.reason)) :=
  ⟨paged_query_loop_error_after_oks db.baseurl _ oks e hoks he 0 [],
   paged_query_loop_error_after_oks db.baseurl _ oks e hoks he 0 [],
   paged_query_loop_error_after_oks db.baseurl _ oks e hoks he 0 []⟩

/-- A 503 error page. -/
def page503 : HttpResponse (QueryPage Nat) :=
  { status_code := 503, reason := "Service Unavailable"
    body := { items := [], count := 0, hasMore := false } }

/-- Witness for C6: two full ok pages followed by a 503 — the run ends in
the extract-data error, not in the four already-accumulated documents. -/
theorem c6_witness :
    (∀ r ∈ [pageA, pageB], (200 ≤ r.status_code ∧ r.status_code ≤ 299) ∧
      r.body.hasMore = true) ∧
    ¬(200 ≤ page503.status_code ∧ page503.status_code ≤ 299) ∧
    (extract_items db0 7 ([pageA, pageB] ++ [page503])).2 =
      .err (.unableToExtractData (error_msg 503 "Service Unavailable")) := by
  refine ⟨by decide, by decide, ?_⟩
  exact (c6_error_discards_partial_results db0 7 0 0 0 0 0 [pageA, pageB] page503
    (by decide) (by decide)).1

/-- C4 (amended): GET and POST classify a status in `[200, 299]` as success
and everything else as failure carrying status and reason; DELETE requires
exactly 200; on failure each operation raises its specific error kind with
the original status code and reason preserved (access error for listing,
delete error, add error for single, bulk and metadata inserts, extract-data
error for the metadata query and the paginated extracts); collection
creation, however, checks its PUT only as `status_code > 299`, so it raises
the create error with status and reason preserved exactly for statuses
above 299 and treats every status up to 299 — including those below 200 —
as success. -/
theorem c4_status_classification {α : Type u} :
    (∀ r : HttpResponse α,
      (200 ≤ r.status_code ∧ r.status_code ≤ 299 →
        make_post_request r = .ok r.status_code r.body ∧
        make_get_request r = .ok r.status_code r.body) ∧
      (¬(200 ≤ r.status_code ∧ r.status_code ≤ 299) →
        make_post_request r = .error r.status_code r.reason ∧
        make_get_request r = .error r.status_code r.reason) ∧
      (r.status_code = 200 → make_delete_request r = .ok r.status_code r.body) ∧
      (r.status_code ≠ 200 → make_delete_request r = .error r.status_code r.reason)) ∧
    (∀ (db : JsonDatabase) (env : CreateEnv) (names : List CollInfo) (ov : Bool),
      200 ≤ env.listResp.status_code ∧ env.listResp.status_code ≤ 299 →
      env.listResp.body.items = some names →
      db.collname ∉ names.map CollInfo.name →
      (299 < env.putResp.status_code →
        create_collection db ov env =
          ([HttpCall.get (list_url db), HttpCall.put db.baseurl],
           .err (.unableToCreate
             (error_msg env.putResp.status_code env.putResp.reason)))) ∧
      (env.putResp.status_code ≤ 299 →
        create_collection db ov env =
          ([HttpCall.get (list_url db), HttpCall.put db.baseurl], .ok 1))) ∧
    (∀ db : JsonDatabase,
      (∀ rl : HttpResponse ListBody,
        ¬(200 ≤ rl.status_code ∧ rl.status_code ≤ 299) →
        list_collections db rl =
          .err (.unableToAccess (error_msg rl.status_code rl.reason))) ∧
      (∀ rd : HttpResponse Unit, rd.status_code ≠ 200 →
        delete_collection db rd =
          .err (.unableToDelete (error_msg rd.status_code rd.reason))) ∧
      (∀ (d : Doc) (ri : HttpResponse Unit),
        ¬(200 ≤ ri.status_code ∧ ri.status_code ≤ 299) →
        add_item db d ri =
          .err (.unableToAddItem (error_msg ri.status_code ri.reason))) ∧
      (∀ (ds : List Doc) (ri : HttpResponse Unit),
        ¬(200 ≤ ri.status_code ∧ ri.status_code ≤ 299) →
        add_multiple_items db ds ri =
          .err (.unableToAddItem (error_msg ri.status_code ri.reason))) ∧
      (∀ (meta : MetaContent) (qResp : HttpResponse (QueryPage Doc))
         (iResp : HttpResponse Unit),
        extract_metadata qResp = .ok [] →
        ¬(200 ≤ iResp.status_code ∧ iResp.status_code ≤ 299) →
        (add_metadata db meta qResp iResp).2 =
          .err (.unableToAddItem (error_msg iResp.status_code iResp.reason))) ∧
      (∀ rq : HttpResponse (QueryPage Doc),
        ¬(200 ≤ rq.status_code ∧ rq.status_code ≤ 299) →
        extract_metadata rq =
          .err (.unableToExtractData (error_msg rq.status_code rq.reason))) ∧
      (∀ (z_layer x0 y0 xf yf tile_size : Int)
         (oks : List (HttpResponse (QueryPage α))) (e : HttpResponse (QueryPage α)),
        (∀ r ∈ oks, (200 ≤ r.status_code ∧ r.status_code ≤ 299) ∧
          r.body.hasMore = true) →
        ¬(200 ≤ e.status_code ∧ e.status_code ≤ 299) →
        (extract_items db z_layer (oks ++ [e])).2 =
          .err (.unableToExtractData (error_msg e.status_code e.reason)) ∧
        (extract_tile_data db z_layer x0 y0 tile_size (oks ++ [e])).2 =
          .err (.unableToExtractData (error_msg e.status_code e.reason)) ∧
        (extract_region db z_layer x0 y0 xf yf (oks ++ [e])).2 =
          .err (.unableToExtractData (error_msg e.status_code e.reason)))) := by
  refine ⟨?_, ?_, ?_⟩
  · intro r
    refine ⟨?_, ?_, ?_, ?_⟩
    · exact fun h => ⟨make_post_request_ok r h, make_get_request_ok r h⟩
    · exact fun h => ⟨make_post_request_error r h, make_get_request_error r h⟩
    · intro h
      simp [make_delete_request, h]
    · intro h
      simp [make_delete_request, h]
  · intro db env names ov hl hitems habsent
    constructor
    · intro hgt
      simp [create_collection, list_collections, make_get_request_ok _ hl,
        hitems, habsent, hgt]
    · intro hle
      simp [create_collection, list_collections, make_get_request_ok _ hl,
        hitems, habsent, Nat.not_lt.mpr hle]
  · intro db
    refine ⟨?_, ?_, ?_, ?_, ?_, ?_, ?_⟩
    · intro rl h
      simp [list_collections, make_get_request_error rl h]
    · intro rd h
      simp [delete_collection, make_delete_request, h]
    · intro d ri h
      simp [add_item, make_post_request_error ri h]
    · intro ds ri h
      simp [add_multiple_items, make_post_request_error ri h]
    · intro meta qResp iResp hq hi
      simp [add_metadata, hq, make_post_request_error iResp hi]
    · intro rq h
      simp [extract_metadata, make_post_request_error rq h]
    · intro z_layer x0 y0 xf yf tile_size oks e hoks he
      exact ⟨paged_query_loop_error_after_oks db.baseurl _ oks e hoks he 0 [],
        paged_query_loop_error_after_oks db.baseurl _ oks e hoks he 0 [],
        paged_query_loop_error_after_oks db.baseurl _ oks e hoks he 0 []⟩

/-- A 403 response to the store-level listing GET. -/
def resp403List : HttpResponse ListBody :=
  { status_code := 403, reason := "Forbidden", body := { items := none } }

/-- A 500 response to a mutation request. -/
def resp500Unit : HttpResponse Unit :=
  { status_code := 500, reason := "Server Error", body := () }

/-- A plain (non-metadata) document. -/
def docW : Doc := { type := "Nucleus", content := [] }

/-- Witness for C4 (amended): the classification at statuses 204, 404, 200
and 500; each operation's specific error kind at a concrete failing status
(listing at 403, delete, single insert, bulk insert and metadata insert at
500, metadata query at 404, a paginated extract at 503); and the create
check accepting PUT status 100. -/
theorem c4_witness :
    ((200 ≤ (204 : Nat) ∧ (204 : Nat) ≤ 299) ∧
      make_post_request { status_code := 204, reason := "No Content", body := (0 : Nat) } =
        .ok 204 0) ∧
    (¬(200 ≤ (404 : Nat) ∧ (404 : Nat) ≤ 299) ∧
      make_get_request { status_code := 404, reason := "Not Found", body := (0 : Nat) } =
        .error 404 "Not Found") ∧
    make_delete_request { status_code := 200, reason := "OK", body := (0 : Nat) } = .ok 200 0 ∧
    ((500 : Nat) ≠ 200 ∧
      make_delete_request { status_code := 500, reason := "Server Error", body := (0 : Nat) } =
        .error 500 "Server Error") ∧
    (¬(200 ≤ resp403List.status_code ∧ resp403List.status_code ≤ 299) ∧
      list_collections db0 resp403List =
        .err (.unableToAccess (error_msg 403 "Forbidden"))) ∧
    (resp500Unit.status_code ≠ 200 ∧
      delete_collection db0 resp500Unit =
        .err (.unableToDelete (error_msg 500 "Server Error"))) ∧
    add_item db0 docW resp500Unit =
      .err (.unableToAddItem (error_msg 500 "Server Error")) ∧
    add_multiple_items db0 [docW] resp500Unit =
      .err (.unableToAddItem (error_msg 500 "Server Error")) ∧
    (extract_metadata respMeta0 = .ok [] ∧
      (add_metadata db0 [("k", "v")] respMeta0 resp500Unit).2 =
        .err (.unableToAddItem (error_msg 500 "Server Error"))) ∧
    extract_metadata respMeta404 =
      .err (.unableToExtractData (error_msg 404 "Not Found")) ∧
    (extract_items db0 7 ([pageA] ++ [page503])).2 =
      .err (.unableToExtractData (error_msg 503 "Service Unavailable")) ∧
    ((200 ≤ envPut100.listResp.status_code ∧ envPut100.listResp.status_code ≤ 299) ∧
      envPut100.listResp.body.items = some [] ∧
      db0.collname ∉ ([] : List CollInfo).map CollInfo.name ∧
      envPut100.putResp.status_code ≤ 299 ∧
      create_collection db0 true envPut100 =
        ([HttpCall.get (list_url db0), HttpCall.put db0.baseurl], .ok 1)) := by
  refine ⟨⟨by decide, ?_⟩, ⟨by decide, ?_⟩, ?_, ⟨by decide, ?_⟩, ⟨by decide, ?_⟩,
    ⟨by decide, ?_⟩, ?_, ?_, ⟨rfl, ?_⟩, ?_, ?_,
    by decide, rfl, by simp, by decide, ?_⟩
  · exact ((c4_status_classification.1 _).1 (by decide)).1
  · exact ((c4_status_classification.1 _).2.1 (by decide)).2
  · exact (c4_status_classification.1 _).2.2.1 rfl
  · exact (c4_status_classification.1 _).2.2.2 (by decide)
  · exact (((c4_status_classification (α := Unit)).2.2 db0).1 resp403List (by decide))
  · exact (((c4_status_classification (α := Unit)).2.2 db0).2.1 resp500Unit (by decide))
  · exact (((c4_status_classification (α := Unit)).2.2 db0).2.2.1 docW resp500Unit (by decide))
  · exact (((c4_status_classification (α := Unit)).2.2 db0).2.2.2.1 [docW] resp500Unit (by decide))
  · exact (((c4_status_classification (α := Unit)).2.2 db0).2.2.2.2.1
      [("k", "v")] respMeta0 resp500Unit rfl (by decide))
  · exact (((c4_status_classification (α := Unit)).2.2 db0).2.2.2.2.2.1 respMeta404 (by decide))
  · exact (((c4_status_classification (α := Nat)).2.2 db0).2.2.2.2.2.2
      7 0 0 0 0 0 [pageA] page503 (by decide) (by decide)).1
  · exact (((c4_status_classification (α := Unit)).2.1 db0 envPut100 [] true (by decide) rfl
      (by simp)).2 (by decide))

/-! ## Metadata scenario lemmas over the idealized store -/

/-- A store with no metadata documents answers the metadata query so that
`extract_metadata` returns the empty mapping. -/
lemma extract_metadata_store_empty (s : Store)
    (hs : Store.metadataDocs s = []) :
    extract_metadata (Store.metaQueryResp s) = .ok [] := by
  norm_num [extract_metadata, Store.metaQueryResp, Store.metaQueryPage, hs,
    make_post_request]

/-- A store with exactly one metadata document answers the metadata query so
that `extract_metadata` returns that document's content. -/
lemma extract_metadata_store_single (s : Store) (d : Doc)
    (hd : Store.metadataDocs s = [d]) :
    extract_metadata (Store.metaQueryResp s) = .ok d.content := by
  norm_num [extract_metadata, Store.metaQueryResp, Store.metaQueryPage, hd,
    make_post_request]

/-- Appending a metadata document extends the store's metadata documents. -/
lemma metadataDocs_append_meta (s : Store) (meta : MetaContent) :
    Store.metadataDocs (s ++ [{ type := "Metadata", content := meta }]) =
      Store.metadataDocs s ++ [{ type := "Metadata", content := meta }] := by
  simp [Store.metadataDocs, List.filter_append]

/-- Whenever `extract_metadata` reports an empty (falsy) content mapping,
`add_metadata` against the store proceeds to the insert: it succeeds and
appends the wrapped metadata document. -/
lemma runAddMetadata_inserts (db : JsonDatabase) (t : Store) (meta : MetaContent)
    (hx : extract_metadata (Store.metaQueryResp t) = .ok []) :
    Store.runAddMetadata db t meta =
      (.ok 1, t ++ [{ type := "Metadata", content := meta }]) := by
  simp [Store.runAddMetadata, add_metadata, hx, make_post_request, okInsertResp,
    Store.applyCall]

/-- Whenever `extract_metadata` reports a nonempty content mapping,
`add_metadata` raises the metadata-already-exists error after only the
query request, leaving the store unchanged. -/
lemma runAddMetadata_rejects (db : JsonDatabase) (t : Store) (meta c : MetaContent)
    (hx : extract_metadata (Store.metaQueryResp t) = .ok c) (hne : c ≠ []) :
    Store.runAddMetadata db t meta =
      (.err (.metadataAlreadyExists "A collection can have only 1 metadata document."), t) := by
  have hfalse : c.isEmpty = false := by
    cases c with
    | nil => exact absurd rfl hne
    | cons x xs => rfl
  simp [Store.runAddMetadata, add_metadata, hx, hfalse, Store.applyCall]

/-- The exact boundary of C1: `add_metadata` queries for existing metadata
first and, whenever the extracted content mapping is nonempty, raises the
metadata-already-exists error before issuing any insert; consequently, for
every nonempty metadata mapping, calling `add_metadata` twice on a
collection without metadata has the first call succeed and the second call
fail with metadata-already-exists (inserting nothing), and
`extract_metadata` after the first call returns the exact content mapping
passed in. (Quantified over every mapping, as C1 states it, this fails at
the empty mapping: its extracted content is falsy, so the existence check
of the second call passes — see the failing-input evaluation below.) -/
theorem c1_add_metadata_twice (db : JsonDatabase) (s : Store) (meta : MetaContent)
    (hs : Store.metadataDocs s = []) (hmeta : meta ≠ []) :
    (Store.runAddMetadata db s meta).1 = .ok 1 ∧
    (Store.runAddMetadata db s meta).2 =
      s ++ [{ type := "Metadata", content := meta }] ∧
    extract_metadata (Store.metaQueryResp (Store.runAddMetadata db s meta).2) =
      .ok meta ∧
    (Store.runAddMetadata db (Store.runAddMetadata db s meta).2 meta).1 =
      .err (.metadataAlreadyExists "A collection can have only 1 metadata document.") ∧
    (Store.runAddMetadata db (Store.runAddMetadata db s meta).2 meta).2 =
      (Store.runAddMetadata db s meta).2 ∧
    (∀ (qResp : HttpResponse (QueryPage Doc)) (iResp : HttpResponse Unit)
       (c : MetaContent),
      extract_metadata qResp = .ok c → c ≠ [] →
      add_metadata db meta qResp iResp =
        ([HttpCall.postQuery (db.baseurl ++ "?action=query") meta_qdata],
         .err (.metadataAlreadyExists "A collection can have only 1 metadata document."))) := by
  have h1 := runAddMetadata_inserts db s meta (extract_metadata_store_empty s hs)
  have hd1 : Store.metadataDocs (Store.runAddMetadata db s meta).2 =
      [{ type := "Metadata", content := meta }] := by
    rw [h1]
    rw [metadataDocs_append_meta, hs, List.nil_append]
  have h2 := extract_metadata_store_single (Store.runAddMetadata db s meta).2
    { type := "Metadata", content := meta } hd1
  have h3 := runAddMetadata_rejects db (Store.runAddMetadata db s meta).2 meta meta h2 hmeta
  refine ⟨by rw [h1], by rw [h1], h2, by rw [h3], by rw [h3], ?_⟩
  intro qResp iResp c hq hne
  have hfalse : c.isEmpty = false := by
    cases c with
    | nil => exact absurd rfl hne
    | cons x xs => rfl
  simp [add_metadata, hq, hfalse]

/-- The boundary result of C1 at a concrete nonempty mapping on an empty
collection: first call succeeds, second fails with metadata-already-exists,
and the extracted content equals the mapping passed in. -/
theorem c1_witness :
    Store.metadataDocs ([] : Store) = [] ∧ ([("k", "v")] : MetaContent) ≠ [] ∧
    (Store.runAddMetadata db0 [] [("k", "v")]).1 = .ok 1 ∧
    extract_metadata
      (Store.metaQueryResp (Store.runAddMetadata db0 [] [("k", "v")]).2) =
      .ok [("k", "v")] ∧
    (Store.runAddMetadata db0 (Store.runAddMetadata db0 [] [("k", "v")]).2
      [("k", "v")]).1 =
      .err (.metadataAlreadyExists "A collection can have only 1 metadata document.") := by
  refine ⟨rfl, by decide, ?_, ?_, ?_⟩
  · exact (c1_add_metadata_twice db0 [] [("k", "v")] rfl (by decide)).1
  · exact (c1_add_metadata_twice db0 [] [("k", "v")] rfl (by decide)).2.2.1
  · exact (c1_add_metadata_twice db0 [] [("k", "v")] rfl (by decide)).2.2.2.1

/-- C1, the code evaluated at the failing input: with the empty mapping,
the second `add_metadata` call also succeeds — it does not fail with
metadata-already-exists as the claim (and the method docstring of the
source) states — and a second metadata document ends up stored. -/
theorem c1_empty_mapping_bug :
    (Store.runAddMetadata db0 [] []).1 = .ok 1 ∧
    (Store.runAddMetadata db0 (Store.runAddMetadata db0 [] []).2 []).1 = .ok 1 ∧
    (Store.runAddMetadata db0 (Store.runAddMetadata db0 [] []).2 []).1 ≠
      .err (.metadataAlreadyExists "A collection can have only 1 metadata document.") ∧
    (Store.metadataDocs
      (Store.runAddMetadata db0 (Store.runAddMetadata db0 [] []).2 []).2).length = 2 :=
  ⟨rfl, rfl, by decide, rfl⟩

/-- C9: `extract_metadata` answers the same empty mapping for a collection
with zero metadata documents and for one whose single metadata document has
empty (falsy) content — the two states are indistinguishable to callers —
and in the latter state `add_metadata`'s existence check passes, so a
second metadata document is inserted. -/
theorem c9_empty_content_indistinguishable (db : JsonDatabase) (s t : Store)
    (meta : MetaContent)
    (hs : Store.metadataDocs s = [])
    (ht : Store.metadataDocs t = [{ type := "Metadata", content := [] }]) :
    extract_metadata (Store.metaQueryResp s) = .ok [] ∧
    extract_metadata (Store.metaQueryResp t) = .ok [] ∧
    extract_metadata (Store.metaQueryResp s) =
      extract_metadata (Store.metaQueryResp t) ∧
    (Store.runAddMetadata db t meta).1 = .ok 1 ∧
    Store.metadataDocs (Store.runAddMetadata db t meta).2 =
      [{ type := "Metadata", content := [] },
       { type := "Metadata", content := meta }] := by
  have h1 := extract_metadata_store_empty s hs
  have h2 := extract_metadata_store_single t { type := "Metadata", content := [] } ht
  have h3 := runAddMetadata_inserts db t meta h2
  refine ⟨h1, h2, h1.trans h2.symm, by rw [h3], ?_⟩
  rw [h3]
  rw [metadataDocs_append_meta, ht]
  rfl

/-- Witness for C9: the empty store versus the store holding one metadata
document with empty content; adding metadata to the latter succeeds and
leaves two metadata documents. -/
theorem c9_witness :
    Store.metadataDocs ([] : Store) = [] ∧
    Store.metadataDocs [{ type := "Metadata", content := [] }] =
      [{ type := "Metadata", content := [] }] ∧
    extract_metadata (Store.metaQueryResp []) = .ok [] ∧
    extract_metadata
      (Store.metaQueryResp [{ type := "Metadata", content := [] }]) = .ok [] ∧
    (Store.runAddMetadata db0 [{ type := "Metadata", content := [] }]
      [("k", "v")]).1 = .ok 1 ∧
    Store.metadataDocs
      (Store.runAddMetadata db0 [{ type := "Metadata", content := [] }]
        [("k", "v")]).2 =
      [{ type := "Metadata", content := [] },
       { type := "Metadata", content := [("k", "v")] }] := by
  have h := c9_empty_content_indistinguishable db0 []
    [{ type := "Metadata", content := [] }] [("k", "v")] rfl rfl
  exact ⟨rfl, rfl, h.1, h.2.1, h.2.2.2.1, h.2.2.2.2⟩

end DbAccessRest
